import Mathlib

/-!
Verification of a deterministic cost-effectiveness analysis (CEA) script
comparing two health interventions.

The computational core consists of four pure functions over numeric scalars:
total cost, present-value discounting, cost per QALY, and the incremental
cost-effectiveness ratio (ICER), followed by a linear pipeline that applies
them to fixed inputs and assembles a summary table.

Numeric values are embedded as rationals.  The Python value float(inf),
used as a sentinel for a degenerate (zero) denominator, is embedded as a
dedicated constructor alongside finite rational values.
-/

/-- Result of a ratio computation: either a finite currency amount or the
positive-infinity sentinel returned on a degenerate denominator. -/
inductive CEAValue where
  | val (q : ℚ)
  | posInf
  deriving DecidableEq, Repr

/-- Total cost of an intervention: base cost plus outpatient-visit costs
plus test costs. -/
def total_cost (base_cost visits visit_cost tests test_cost : ℚ) : ℚ :=
  base_cost + (visits * visit_cost) + (tests * test_cost)

/-- Present-value discounting: value divided by (1 + rate) raised to the
number of years. -/
def discount_value (value rate : ℚ) (years : ℕ) : ℚ :=
  value / ((1 + rate) ^ years)

/-- Cost per QALY; the sentinel is returned when qaly is zero to avoid a
division by zero. -/
def calculate_cost_per_qaly (cost qaly : ℚ) : CEAValue :=
  if qaly = 0 then CEAValue.posInf
  else CEAValue.val (cost / qaly)

/-- Incremental cost-effectiveness ratio between two interventions: the
absolute cost difference divided by the signed QALY difference; the sentinel
is returned when the QALY difference is zero. -/
def calculate_icer (cost1 cost2 qaly1 qaly2 : ℚ) : CEAValue :=
  let delta_cost := |cost1 - cost2|
  let delta_qaly := qaly1 - qaly2
  if delta_qaly = 0 then CEAValue.posInf
  else CEAValue.val (delta_cost / delta_qaly)

/-- The scalar inputs of the script: base costs, QALYs, utilisation counts
and unit costs for interventions A and B, the discount parameters and the
willingness-to-pay threshold. -/
structure Inputs where
  cost_intervention_A : ℚ
  cost_intervention_B : ℚ
  qaly_intervention_A : ℚ
  qaly_intervention_B : ℚ
  cost_per_outpatient_visit : ℚ
  cost_per_test : ℚ
  number_of_visits_A : ℚ
  number_of_tests_A : ℚ
  number_of_visits_B : ℚ
  number_of_tests_B : ℚ
  discount_rate : ℚ
  years : ℕ
  wtp : ℚ

/-- The literal base-case inputs defined at the top of the script. -/
def baseInputs : Inputs where
  cost_intervention_A := 46734
  cost_intervention_B := 45447
  qaly_intervention_A := 357 / 100
  qaly_intervention_B := 346 / 100
  cost_per_outpatient_visit := 0
  cost_per_test := 0
  number_of_visits_A := 0
  number_of_tests_A := 0
  number_of_visits_B := 0
  number_of_tests_B := 0
  discount_rate := 0
  years := 0
  wtp := 20000

/-- Pipeline: total cost of intervention A. -/
def total_cost_A (inp : Inputs) : ℚ :=
  total_cost inp.cost_intervention_A inp.number_of_visits_A
    inp.cost_per_outpatient_visit inp.number_of_tests_A inp.cost_per_test

/-- Pipeline: total cost of intervention B. -/
def total_cost_B (inp : Inputs) : ℚ :=
  total_cost inp.cost_intervention_B inp.number_of_visits_B
    inp.cost_per_outpatient_visit inp.number_of_tests_B inp.cost_per_test

/-- Pipeline: discounted cost of intervention A. -/
def discounted_cost_A (inp : Inputs) : ℚ :=
  discount_value (total_cost_A inp) inp.discount_rate inp.years

/-- Pipeline: discounted cost of intervention B. -/
def discounted_cost_B (inp : Inputs) : ℚ :=
  discount_value (total_cost_B inp) inp.discount_rate inp.years

/-- Pipeline: cost per QALY of intervention A, from the discounted cost and
the undiscounted QALY input. -/
def cost_per_qaly_A (inp : Inputs) : CEAValue :=
  calculate_cost_per_qaly (discounted_cost_A inp) inp.qaly_intervention_A

/-- Pipeline: cost per QALY of intervention B, from the discounted cost and
the undiscounted QALY input. -/
def cost_per_qaly_B (inp : Inputs) : CEAValue :=
  calculate_cost_per_qaly (discounted_cost_B inp) inp.qaly_intervention_B

/-- Pipeline: ICER of the two interventions, from the discounted costs and
the undiscounted QALY inputs. -/
def icer (inp : Inputs) : CEAValue :=
  calculate_icer (discounted_cost_A inp) (discounted_cost_B inp)
    inp.qaly_intervention_A inp.qaly_intervention_B

/-- Pipeline: incremental cost, the difference of the discounted costs. -/
def delta_cost (inp : Inputs) : ℚ :=
  discounted_cost_A inp - discounted_cost_B inp

/-- Pipeline: incremental QALY, the difference of the QALY inputs. -/
def delta_qaly (inp : Inputs) : ℚ :=
  inp.qaly_intervention_A - inp.qaly_intervention_B

/-- One row of the summary dataframe, with columns Costs, QALYs,
Incremental costs, Incremental QALY and ICER. -/
structure SummaryRow where
  costs : ℚ
  qalys : ℚ
  incremental_costs : ℚ
  incremental_qaly : ℚ
  row_icer : CEAValue
  deriving DecidableEq, Repr

/-- The dataframe row for Intervention A: discounted cost, QALY, and the
pairwise deltas and ICER. -/
def df_row_A (inp : Inputs) : SummaryRow :=
  { costs := discounted_cost_A inp
    qalys := inp.qaly_intervention_A
    incremental_costs := delta_cost inp
    incremental_qaly := delta_qaly inp
    row_icer := icer inp }

/-- The dataframe row for Intervention B: discounted cost, QALY, and literal
zeros in the incremental and ICER columns. -/
def df_row_B (inp : Inputs) : SummaryRow :=
  { costs := discounted_cost_B inp
    qalys := inp.qaly_intervention_B
    incremental_costs := 0
    incremental_qaly := 0
    row_icer := CEAValue.val 0 }

/-!
Claim theorems.
-/

/-- C1: for every cost1, cost2, qaly1, qaly2, calculate_icer returns the
positive-infinity sentinel when qaly1 = qaly2, and otherwise the absolute
cost difference divided by the signed qaly difference. -/
theorem calculate_icer_spec (c1 c2 q1 q2 : ℚ) :
    calculate_icer c1 c2 q1 q2 =
      if q1 = q2 then CEAValue.posInf
      else CEAValue.val (|c1 - c2| / (q1 - q2)) := by
  simp only [calculate_icer]
  split_ifs with h1 h2 h2
  · rfl
  · exact absurd (sub_eq_zero.mp h1) h2
  · exact absurd (sub_eq_zero.mpr h2) h1
  · rfl

/-- C3: for every cost and qaly, calculate_cost_per_qaly returns the
positive-infinity sentinel when qaly = 0 and cost / qaly otherwise; as a
total function it never fails at runtime. -/
theorem calculate_cost_per_qaly_spec (c q : ℚ) :
    calculate_cost_per_qaly c q =
      if q = 0 then CEAValue.posInf else CEAValue.val (c / q) := rfl

/-- C5: for non-negative inputs, total_cost is the base cost plus the visit
and test utilisation costs, the result is non-negative, and with all
utilisation terms zero it equals the base cost. -/
theorem total_cost_spec (b v vc t tc : ℚ)
    (hb : 0 ≤ b) (hv : 0 ≤ v) (hvc : 0 ≤ vc) (ht : 0 ≤ t) (htc : 0 ≤ tc) :
    total_cost b v vc t tc = b + v * vc + t * tc ∧
    0 ≤ total_cost b v vc t tc ∧
    total_cost b 0 0 0 0 = b := by
  refine ⟨rfl, ?_, by simp [total_cost]⟩
  exact add_nonneg (add_nonneg hb (mul_nonneg hv hvc)) (mul_nonneg ht htc)

/-- Witness for C5 at concrete non-negative inputs. -/
theorem total_cost_spec_witness :
    total_cost 5 1 2 3 4 = 5 + 1 * 2 + 3 * 4 ∧
    (0 : ℚ) ≤ total_cost 5 1 2 3 4 ∧
    total_cost 5 0 0 0 0 = 5 :=
  total_cost_spec 5 1 2 3 4 (by norm_num) (by norm_num) (by norm_num)
    (by norm_num) (by norm_num)

/-- C6: discount_value computes value / (1 + rate) ^ years, is the identity
at rate 0 for every horizon, and is the identity at horizon 0 for every
non-negative rate. -/
theorem discount_value_spec :
    (∀ (v r : ℚ) (y : ℕ), discount_value v r y = v / (1 + r) ^ y) ∧
    (∀ (v : ℚ) (y : ℕ), discount_value v 0 y = v) ∧
    (∀ (v r : ℚ), 0 ≤ r → discount_value v r 0 = v) := by
  refine ⟨fun v r y => rfl, fun v y => ?_, fun v r _ => ?_⟩
  · simp [discount_value]
  · simp [discount_value]

/-- Witness for C6 at concrete inputs, the rate hypothesis discharged at
rate 2. -/
theorem discount_value_spec_witness :
    discount_value 7 2 3 = 7 / (1 + 2) ^ 3 ∧
    discount_value 5 0 4 = 5 ∧
    discount_value 9 2 0 = 9 :=
  ⟨discount_value_spec.1 7 2 3, discount_value_spec.2.1 5 4,
    discount_value_spec.2.2 9 2 (by norm_num)⟩

/-- C2 counterexample: on the literal base-case inputs the code computes
cost per QALY values of 46734 / 3.57 (which is below 13091, hence not
13091.60) and 45447 / 3.46 (which is above 13134.9, hence not 13134.68),
refuting the claimed table of outputs at its own stated input. -/
theorem base_case_claimed_values_false :
    cost_per_qaly_A baseInputs ≠ CEAValue.val (13091.60 : ℚ) ∧
    cost_per_qaly_A baseInputs = CEAValue.val (46734 / (357 / 100)) ∧
    (46734 / (357 / 100) : ℚ) < 13091 ∧
    cost_per_qaly_B baseInputs ≠ CEAValue.val (13134.68 : ℚ) ∧
    cost_per_qaly_B baseInputs = CEAValue.val (45447 / (346 / 100)) ∧
    (13134.9 : ℚ) < 45447 / (346 / 100) := by
  refine ⟨?_, ?_, by norm_num, ?_, ?_, by norm_num⟩ <;>
    norm_num [cost_per_qaly_A, cost_per_qaly_B, calculate_cost_per_qaly,
      discounted_cost_A, discounted_cost_B, discount_value, total_cost_A,
      total_cost_B, total_cost, baseInputs]

/-- C2 (amended): on the literal base-case inputs the pipeline yields
total costs 46734 and 45447, discounted costs equal to the totals, cost per
QALY 46734 / 3.57 (which formats as 13090.76, not 13091.60) and
45447 / 3.46 (which formats as 13134.97, not 13134.68), and an ICER of
exactly 11700. -/
theorem base_case_end_to_end :
    total_cost_A baseInputs = 46734 ∧
    total_cost_B baseInputs = 45447 ∧
    discounted_cost_A baseInputs = total_cost_A baseInputs ∧
    discounted_cost_B baseInputs = total_cost_B baseInputs ∧
    cost_per_qaly_A baseInputs = CEAValue.val (46734 / (357 / 100)) ∧
    (13090.755 : ℚ) ≤ 46734 / (357 / 100) ∧
    (46734 / (357 / 100) : ℚ) < 13090.765 ∧
    cost_per_qaly_B baseInputs = CEAValue.val (45447 / (346 / 100)) ∧
    (13134.965 : ℚ) ≤ 45447 / (346 / 100) ∧
    (45447 / (346 / 100) : ℚ) < 13134.975 ∧
    icer baseInputs = CEAValue.val 11700 := by
  refine ⟨?_, ?_, ?_, ?_, ?_, by norm_num, by norm_num, ?_, by norm_num,
      by norm_num, ?_⟩ <;>
    norm_num [icer, calculate_icer, cost_per_qaly_A, cost_per_qaly_B,
      calculate_cost_per_qaly, discounted_cost_A, discounted_cost_B,
      discount_value, total_cost_A, total_cost_B, total_cost, baseInputs]

/-- C4 counterexample: at cost1 = 1, cost2 = 0, qaly1 = 1, qaly2 = 0 the
ICER is 1, swapping both argument pairs gives -1 (the result is not left
unchanged), and swapping only the cost pair gives 1 (the sign does not
flip). -/
theorem icer_swap_counterexample :
    calculate_icer (1 : ℚ) 0 1 0 = CEAValue.val 1 ∧
    calculate_icer (0 : ℚ) 1 0 1 = CEAValue.val (-1) ∧
    calculate_icer (0 : ℚ) 1 1 0 = CEAValue.val 1 ∧
    CEAValue.val (1 : ℚ) ≠ CEAValue.val (-1 : ℚ) := by
  refine ⟨?_, ?_, ?_, ?_⟩ <;> norm_num [calculate_icer]

/-- C4 (amended): for every c1, c2, q1, q2 with q1 not equal to q2, the ICER
is the finite value |c1 - c2| / (q1 - q2); swapping only the cost pair
leaves it unchanged, while swapping only the qaly pair, or swapping both
pairs together, flips its sign. -/
theorem icer_swap_pairs (c1 c2 q1 q2 : ℚ) (h : q1 ≠ q2) :
    calculate_icer c1 c2 q1 q2 = CEAValue.val (|c1 - c2| / (q1 - q2)) ∧
    calculate_icer c2 c1 q1 q2 = CEAValue.val (|c1 - c2| / (q1 - q2)) ∧
    calculate_icer c1 c2 q2 q1 = CEAValue.val (-(|c1 - c2| / (q1 - q2))) ∧
    calculate_icer c2 c1 q2 q1 = CEAValue.val (-(|c1 - c2| / (q1 - q2))) := by
  have h12 : q1 - q2 ≠ 0 := sub_ne_zero.mpr h
  have h21 : q2 - q1 ≠ 0 := sub_ne_zero.mpr (Ne.symm h)
  have hflip : |c1 - c2| / (q2 - q1) = -(|c1 - c2| / (q1 - q2)) := by
    rw [show q2 - q1 = -(q1 - q2) by ring, div_neg]
  refine ⟨?_, ?_, ?_, ?_⟩ <;>
    simp only [calculate_icer, if_neg h12, if_neg h21, abs_sub_comm c2 c1,
      hflip]

/-- Witness for C4 (amended) at c1 = 1, c2 = 0, q1 = 1, q2 = 0. -/
theorem icer_swap_pairs_witness :
    calculate_icer (1 : ℚ) 0 1 0 = CEAValue.val (|1 - 0| / (1 - 0)) ∧
    calculate_icer (0 : ℚ) 1 1 0 = CEAValue.val (|1 - 0| / (1 - 0)) ∧
    calculate_icer (1 : ℚ) 0 0 1 = CEAValue.val (-(|1 - 0| / (1 - 0))) ∧
    calculate_icer (0 : ℚ) 1 0 1 = CEAValue.val (-(|1 - 0| / (1 - 0))) :=
  icer_swap_pairs 1 0 1 0 (by norm_num)

/-- C7: in the pipeline, discounting with the shared rate and horizon is
applied to each total cost, the discounted costs feed the cost per QALY and
ICER computations, and the qaly inputs reach those computations
undiscounted. -/
theorem qalys_not_discounted (inp : Inputs) :
    discounted_cost_A inp
      = discount_value (total_cost_A inp) inp.discount_rate inp.years ∧
    discounted_cost_B inp
      = discount_value (total_cost_B inp) inp.discount_rate inp.years ∧
    cost_per_qaly_A inp
      = calculate_cost_per_qaly (discounted_cost_A inp)
          inp.qaly_intervention_A ∧
    cost_per_qaly_B inp
      = calculate_cost_per_qaly (discounted_cost_B inp)
          inp.qaly_intervention_B ∧
    icer inp
      = calculate_icer (discounted_cost_A inp) (discounted_cost_B inp)
          inp.qaly_intervention_A inp.qaly_intervention_B :=
  ⟨rfl, rfl, rfl, rfl, rfl⟩

/-- C8: for every choice of inputs, the summary row for Intervention B has
zero incremental costs, zero incremental QALY and a zero ICER column, while
the row for Intervention A carries the pairwise deltas and the ICER. -/
theorem df_row_B_zero_filled (inp : Inputs) :
    (df_row_B inp).incremental_costs = 0 ∧
    (df_row_B inp).incremental_qaly = 0 ∧
    (df_row_B inp).row_icer = CEAValue.val 0 ∧
    (df_row_A inp).incremental_costs = delta_cost inp ∧
    (df_row_A inp).incremental_qaly = delta_qaly inp ∧
    (df_row_A inp).row_icer = icer inp :=
  ⟨rfl, rfl, rfl, rfl, rfl, rfl⟩

/-- C9: the division guards make both ratio functions total; a zero qaly,
including the 0 / 0 case, and equal qalys, including the equal-cost case,
produce the positive-infinity sentinel rather than an error. -/
theorem division_guards_total :
    (∀ c : ℚ, calculate_cost_per_qaly c 0 = CEAValue.posInf) ∧
    calculate_cost_per_qaly 0 0 = CEAValue.posInf ∧
    (∀ c1 c2 q : ℚ, calculate_icer c1 c2 q q = CEAValue.posInf) := by
  refine ⟨fun c => ?_, ?_, fun c1 c2 q => ?_⟩ <;>
    simp [calculate_cost_per_qaly, calculate_icer]

/-- C10: swapping the cost arguments alone never changes the ICER, and when
the costs differ the sign of a finite ICER is exactly the sign of
q1 - q2. -/
theorem icer_cost_swap_and_sign :
    (∀ c1 c2 q1 q2 : ℚ,
      calculate_icer c2 c1 q1 q2 = calculate_icer c1 c2 q1 q2) ∧
    (∀ c1 c2 q1 q2 r : ℚ, c1 ≠ c2 →
      calculate_icer c1 c2 q1 q2 = CEAValue.val r →
      ((0 < r ↔ q2 < q1) ∧ (r < 0 ↔ q1 < q2))) := by
  constructor
  · intro c1 c2 q1 q2
    simp only [calculate_icer, abs_sub_comm c2 c1]
  · intro c1 c2 q1 q2 r hc hr
    by_cases h : q1 - q2 = 0
    · simp only [calculate_icer, if_pos h] at hr
      exact absurd hr (by simp)
    · simp only [calculate_icer, if_neg h, CEAValue.val.injEq] at hr
      have hpos : 0 < |c1 - c2| := abs_pos.mpr (sub_ne_zero.mpr hc)
      subst hr
      constructor
      · rw [div_pos_iff]
        constructor
        · rintro (⟨_, h2⟩ | ⟨h1, _⟩)
          · exact sub_pos.mp h2
          · exact absurd h1 (not_lt.mpr hpos.le)
        · intro h2
          exact Or.inl ⟨hpos, sub_pos.mpr h2⟩
      · rw [div_neg_iff]
        constructor
        · rintro (⟨_, h2⟩ | ⟨h1, _⟩)
          · exact sub_neg.mp h2
          · exact absurd h1 (not_lt.mpr hpos.le)
        · intro h2
          exact Or.inl ⟨hpos, sub_neg.mpr h2⟩

/-- Witness for C10 at c1 = 1, c2 = 2, q1 = 1, q2 = 0, where the ICER is
the finite value 1. -/
theorem icer_cost_swap_and_sign_witness :
    calculate_icer (2 : ℚ) 1 1 0 = calculate_icer 1 2 1 0 ∧
    ((0 < (1 : ℚ)) ↔ ((0 : ℚ) < 1)) ∧ (((1 : ℚ) < 0) ↔ ((1 : ℚ) < 0)) :=
  ⟨icer_cost_swap_and_sign.1 1 2 1 0,
    icer_cost_swap_and_sign.2 1 2 1 0 1 (by norm_num)
      (by norm_num [calculate_icer])⟩

